import Mathlib

/-!
Shallow embedding of the auth config observers of the
cluster-kube-apiserver-operator repository
(pkg/operator/configobservation/auth/external_oidc.go and
pkg/operator/configobservation/auth/rolebindingrestrictions.go),
together with the fragments of k8s.io/apimachinery `unstructured`
accessors and of `net/url` scheme parsing that they depend on.
-/

/-- JSON-like unstructured values: the payloads of the dynamically typed
config trees (`map[string]interface` values in the Go source).  `null` is the
Go nil interface value (it appears as an element of the required-claim slice
when a validation rule is rejected), `str` a Go string, `arr` a Go
`[]interface` slice and `obj` a Go `map[string]interface` map, modelled as an
association list (Go maps are unordered; all map reads below are key-based,
so the list order is unobservable to the embedded code). -/
inductive UVal : Type where
  | null : UVal
  | str : String → UVal
  | arr : List UVal → UVal
  | obj : List (String × UVal) → UVal

/-- An unstructured config tree, the Go `map[string]interface` type.  The Go
nil map and the empty map behave identically for the reads performed by the
observers, so both are modelled as `[]`. -/
abbrev UObj := List (String × UVal)

/-- Go map read `m[k]` on an association list: first matching key wins
(keys are unique in any list produced by the embedded operations). -/
def lookupKey : UObj → String → Option UVal
  | [], _ => none
  | (k1, v) :: rest, k => if k1 = k then some v else lookupKey rest k

/-- Go map write `m[k] = v` on an association list: replace the first
occurrence of the key, or append. -/
def setKey : UObj → String → UVal → UObj
  | [], k, v => [(k, v)]
  | (k1, v1) :: rest, k, v =>
      if k1 = k then (k, v) :: rest else (k1, v1) :: setKey rest k v

mutual
/-- Structural equality of unstructured values, modelling
`equality.Semantic.DeepEqual` on JSON-like payloads.  The apimachinery
`Semantic.DeepEqual` equates nil with empty slices/maps; `UVal` does not
distinguish them in the first place, so plain structural equality is the
faithful translation. -/
def UVal.beq : UVal → UVal → Bool
  | .null, .null => true
  | .str a, .str b => a == b
  | .arr a, .arr b => beqL a b
  | .obj a, .obj b => beqO a b
  | _, _ => false

/-- Elementwise `UVal.beq` on slices. -/
def beqL : List UVal → List UVal → Bool
  | [], [] => true
  | a :: as, b :: bs => UVal.beq a b && beqL as bs
  | _, _ => false

/-- Elementwise `UVal.beq` on map entries. -/
def beqO : List (String × UVal) → List (String × UVal) → Bool
  | [], [] => true
  | (k1, v1) :: as, (k2, v2) :: bs => k1 == k2 && UVal.beq v1 v2 && beqO as bs
  | _, _ => false
end

/-- Models `unstructured.NestedFieldNoCopy(obj, fields...)`: walk the field
path; a missing key yields `(nil, found=false, nil)` (here `.ok none`), a
non-map intermediate value yields an accessor error, otherwise the value at
the path is returned. -/
def nestedFieldNoCopy (o : UObj) : List String → Except String (Option UVal)
  | [] => Except.ok (some (UVal.obj o))
  | [k] => Except.ok (lookupKey o k)
  | k :: rest =>
      match lookupKey o k with
      | none => Except.ok none
      | some (UVal.obj m) => nestedFieldNoCopy m rest
      | some _ => Except.error ("accessor error: " ++ k ++ " is not a map")

/-- Models `unstructured.NestedSlice(obj, fields...)`: the value at the path
must be a `[]interface` slice, otherwise an accessor error is returned. -/
def nestedSlice (o : UObj) (fields : List String) : Except String (Option (List UVal)) :=
  match nestedFieldNoCopy o fields with
  | Except.error e => Except.error e
  | Except.ok none => Except.ok none
  | Except.ok (some (UVal.arr l)) => Except.ok (some l)
  | Except.ok (some _) =>
      Except.error ("accessor error: value at " ++ String.intercalate "." fields ++ " is not a slice")

/-- Models `unstructured.NestedStringSlice(obj, fields...)`: the value at the
path must be a slice all of whose elements are strings. -/
def asStringList : List UVal → Option (List String)
  | [] => some []
  | UVal.str s :: rest => (asStringList rest).map (fun l => s :: l)
  | _ => none

/-- Models `unstructured.NestedStringSlice(obj, fields...)`; `.ok none` is the
Go `found=false` result. -/
def nestedStringSlice (o : UObj) (fields : List String) : Except String (Option (List String)) :=
  match nestedSlice o fields with
  | Except.error e => Except.error e
  | Except.ok none => Except.ok none
  | Except.ok (some l) =>
      match asStringList l with
      | some strs => Except.ok (some strs)
      | none => Except.error "accessor error: slice contains non-string elements"

/-- Models `unstructured.SetNestedField(obj, value, fields...)`: walk the
path creating intermediate maps; an existing non-map intermediate value is an
error. -/
def setNestedField (o : UObj) (v : UVal) : List String → Except String UObj
  | [] => Except.ok o
  | [k] => Except.ok (setKey o k v)
  | k :: rest =>
      match lookupKey o k with
      | some (UVal.obj m) => (setNestedField m v rest).map (fun m2 => setKey o k (UVal.obj m2))
      | some _ => Except.error ("value cannot be set because " ++ k ++ " is not a map")
      | none => (setNestedField [] v rest).map (fun m2 => setKey o k (UVal.obj m2))

/-- Models `unstructured.SetNestedSlice`. -/
def setNestedSlice (o : UObj) (l : List UVal) (fields : List String) : Except String UObj :=
  setNestedField o (UVal.arr l) fields

/-- Models `unstructured.SetNestedStringSlice`. -/
def setNestedStringSlice (o : UObj) (l : List String) (fields : List String) : Except String UObj :=
  setNestedSlice o (l.map UVal.str) fields

/-! Constants from external_oidc.go. -/

/-- Go constant `componentName`. -/
def componentName : String := "kube-apiserver"

/-- Go constant `operatorclient.TargetNamespace` (the kube-apiserver operand
namespace, as fixed by the repository's tests). -/
def targetNamespace : String := "openshift-kube-apiserver"

/-- Go constant `caBundleSourceNamespace`. -/
def caBundleSourceNamespace : String := "openshift-config"

/-- Go constant `TargetOIDCCAConfigMapName`. -/
def TargetOIDCCAConfigMapName : String := "oidc-serving-ca-bundle"

/-- Go constant `staticCABundleFilePath`. -/
def staticCABundleFilePath : String :=
  "/etc/kubernetes/static-pod-resources/configmaps/oidc-serving-ca-bundle/ca-bundle.crt"

/-- Go constant `apiServerArgumentsPath`. -/
def apiServerArgumentsPath : String := "apiServerArguments"

/-- Go constant `oidcIssuerURLPath`. -/
def oidcIssuerURLPath : String := "oidc-issuer-url"

/-- Go constant `oidcClientIDPath`. -/
def oidcClientIDPath : String := "oidc-client-id"

/-- Go constant `oidcUsernameClaimPath`. -/
def oidcUsernameClaimPath : String := "oidc-username-claim"

/-- Go constant `oidcUsernamePrefixPath`. -/
def oidcUsernamePrefixPath : String := "oidc-username-prefix"

/-- Go constant `oidcGroupsClaimPath`. -/
def oidcGroupsClaimPath : String := "oidc-groups-claim"

/-- Go constant `oidcGroupsPrefixPath`. -/
def oidcGroupsPrefixPath : String := "oidc-groups-prefix"

/-- Go constant `oidcRequiredClaimPath`. -/
def oidcRequiredClaimPath : String := "oidc-required-claim"

/-- Go constant `oidcCAFilePath`. -/
def oidcCAFilePath : String := "oidc-ca-file"

/-! URL scheme parsing, modelling the fragment of Go `net/url.Parse` that
`observeExternalOIDC` depends on: the control-character check and the
`getScheme` scan, after which the scheme is lowercased.  The observer only
reads the returned error and the `Scheme` field; deeper `net/url` parse
errors (invalid percent-encodings etc.) are not modelled, no claim depends
on them. -/

/-- First scheme character: an ASCII letter. -/
def isSchemeAlpha (c : Char) : Bool :=
  decide ((Char.ofNat 97 ≤ c ∧ c ≤ Char.ofNat 122) ∨ (Char.ofNat 65 ≤ c ∧ c ≤ Char.ofNat 90))

/-- Subsequent scheme characters additionally allow digits and `+`, `-`, `.`. -/
def isSchemeExtra (c : Char) : Bool :=
  decide (Char.ofNat 48 ≤ c ∧ c ≤ Char.ofNat 57) || c == Char.ofNat 43 || c == Char.ofNat 45 || c == Char.ofNat 46

/-- Models `net/url.getScheme`: scan until a `:`; a leading non-letter means
"no scheme" (empty result, no error), a leading `:` is the
"missing protocol scheme" error. -/
def getSchemeAux : List Char → List Char → Except String String
  | _, [] => Except.ok ""
  | acc, c :: rest =>
      if isSchemeAlpha c then getSchemeAux (acc ++ [c]) rest
      else if isSchemeExtra c then
        if acc.isEmpty then Except.ok "" else getSchemeAux (acc ++ [c]) rest
      else if c == Char.ofNat 58 then
        if acc.isEmpty then Except.error "missing protocol scheme"
        else Except.ok (String.mk acc)
      else Except.ok ""

/-- ASCII lower-casing of one character (models `strings.ToLower` on the
ASCII scheme characters). -/
def lowerChar (c : Char) : Char :=
  if 65 ≤ c.toNat ∧ c.toNat ≤ 90 then Char.ofNat (c.toNat + 32) else c

/-- ASCII lower-casing of a string. -/
def lowerString (s : String) : String := String.mk (s.data.map lowerChar)

/-- Models the fragment of `net/url.Parse` used by the observer: returns the
lowercased scheme of the URL, or an error. -/
def urlParse (raw : String) : Except String String :=
  if raw.data.any (fun c => c.toNat < 32 || c.toNat == 127) then
    Except.error "net/url: invalid control character in URL"
  else
    match getSchemeAux [] raw.data with
    | Except.error e => Except.error e
    | Except.ok s => Except.ok (lowerString s)

/-! Data model: the subset of the openshift/api `configv1.Authentication`
resource read by the observers, and the cluster-state lookup interfaces. -/

/-- `configv1.TokenRequiredClaim`. -/
structure TokenRequiredClaim where
  claim : String
  requiredValue : String

/-- `configv1.TokenClaimValidationRule`; `type` is the Go string enum
`TokenValidationRuleType` whose valid value is "RequiredClaim", and
`requiredClaim` is the (nilable) pointer field. -/
structure TokenClaimValidationRule where
  type : String
  requiredClaim : Option TokenRequiredClaim

/-- `configv1.UsernamePrefix`. -/
structure UsernamePfx where
  prefixString : String

/-- `configv1.UsernameClaimMapping`: `claim` (from the embedded
`TokenClaimMapping`), the string enum `PrefixPolicy` ("" = NoOpinion,
"Prefix", "NoPrefix") and the nilable `Prefix` pointer (`pfx` here). -/
structure UsernameClaimMapping where
  claim : String
  prefixPolicy : String
  pfx : Option UsernamePfx

/-- `configv1.PrefixedClaimMapping` for groups: `claim` and the plain string
`Prefix` field (`pfx` here). -/
structure GroupsClaimMapping where
  claim : String
  pfx : String

/-- `configv1.TokenClaimMappings`. -/
structure TokenClaimMappings where
  username : UsernameClaimMapping
  groups : GroupsClaimMapping

/-- `configv1.ConfigMapNameReference`. -/
structure ConfigMapNameReference where
  name : String

/-- `configv1.TokenIssuer`. -/
structure TokenIssuer where
  url : String
  certificateAuthority : ConfigMapNameReference

/-- `configv1.OIDCClientConfig`. -/
structure OIDCClientConfig where
  componentName : String
  componentNamespace : String
  clientID : String

/-- `configv1.OIDCProvider`. -/
structure OIDCProvider where
  name : String
  issuer : TokenIssuer
  oidcClients : List OIDCClientConfig
  claimMappings : TokenClaimMappings
  claimValidationRules : List TokenClaimValidationRule

/-- The `authentications.config.openshift.io/cluster` resource: `specType` is
`auth.Spec.Type` (a string enum: "IntegratedOAuth", "None", "", "OIDC", ...)
and `oidcProviders` is `auth.Spec.OIDCProviders`. -/
structure Authentication where
  specType : String
  oidcProviders : List OIDCProvider

/-- A `corev1.ConfigMap`, reduced to the only field the observers read. -/
structure ConfigMap where
  data : List (String × String)

/-- Outcome of a lister `Get`: the resource, a k8s IsNotFound error, or any
other error (carrying its message). -/
inductive LookupResult (α : Type) : Type where
  | found : α → LookupResult α
  | notFound : LookupResult α
  | err : String → LookupResult α

/-- The feature-gate snapshot: `featureGates.Enabled(features.FeatureGateExternalOIDC)`. -/
structure FeatureGates where
  externalOIDCEnabled : Bool

/-- `featuregates.FeatureGateAccess`: whether the initial snapshot has been
observed, and the current snapshot (or an error). -/
structure FeatureGateAccess where
  initialObserved : Bool
  currentGates : Except String FeatureGates

/-- `resourcesynccontroller.ResourceLocation`. -/
structure ResourceLocation where
  namespc : String
  name : String
deriving DecidableEq

/-- The point-in-time cluster state an observer invocation reads, plus the
outcome the resource syncer would report for each possible sync request:
`authLookup` is `AuthConfigLister.Get "cluster"`, `cmLookup ns name` is
`ConfigMapLister().ConfigMaps(ns).Get(name)`, and `syncOutcome dst src` is
the error (if any) of `resourceSyncer.SyncConfigMap(dst, src)`. -/
structure ClusterState where
  fgAccess : FeatureGateAccess
  authLookup : LookupResult Authentication
  cmLookup : String → String → LookupResult ConfigMap
  syncOutcome : ResourceLocation → ResourceLocation → Option String

/-- Result of one `ObserveExternalOIDC` pass: the returned tree and error
list, plus the side-effect requests issued through the two capability
interfaces: emitted events (their messages) and issued
`SyncConfigMap(target, source)` requests, in order. -/
structure ObserveResult where
  config : UObj
  errs : List String
  events : List String
  syncs : List (ResourceLocation × ResourceLocation)

/-- Go `map[string]string` read. -/
def lookupStr : List (String × String) → String → Option String
  | [], _ => none
  | (k1, v) :: rest, k => if k1 = k then some v else lookupStr rest k

/-- `equality.Semantic.DeepEqual` on two `map[string]string` data sets
(key-based, order-independent; nil and empty are both `[]` here). -/
def dataEq (a b : List (String × String)) : Bool :=
  a.all (fun kv => lookupStr b kv.1 == some kv.2)
    && b.all (fun kv => lookupStr a kv.1 == some kv.2)

/-- Models `cmNeedsSync` from external_oidc.go.  Returns the Go pair
`(needsSync, err)`; every error branch in the Go source carries
`needsSync=false`. -/
def cmNeedsSync (st : ClusterState)
    (destinationCMName destinationCMNamespace sourceCMName sourceCMNamespace key : String) :
    Bool × Option String :=
  match st.cmLookup destinationCMNamespace destinationCMName with
  | LookupResult.notFound => (true, none)
  | LookupResult.err e => (false, some e)
  | LookupResult.found existingCM =>
      if sourceCMName.length = 0 then (true, none)
      else
        match st.cmLookup sourceCMNamespace sourceCMName with
        | LookupResult.notFound =>
            (false, some ("configmap " ++ sourceCMNamespace ++ "/" ++ sourceCMName ++ " not found"))
        | LookupResult.err e => (false, some e)
        | LookupResult.found sourceCM =>
            if key.length = 0 then (!(dataEq existingCM.data sourceCM.data), none)
            else
              match lookupStr existingCM.data key, lookupStr sourceCM.data key with
              | some val1, some val2 => (val1 != val2, none)
              | none, none => (false, some ("key " ++ key ++ " not found in either configmap"))
              | some _, none => (false, some ("key " ++ key ++ " not found in source configmap"))
              | none, some _ => (true, none)

/-- The fixed mirror target `{TargetNamespace, TargetOIDCCAConfigMapName}`. -/
def targetOIDCCALoc : ResourceLocation := ⟨targetNamespace, TargetOIDCCAConfigMapName⟩

/-- The empty source location (the "delete the target" signal). -/
def emptyLoc : ResourceLocation := ⟨"", ""⟩

/-- Result of `syncCABundleIfNeeded`: the Go pair `(synced, err)` plus the
sync requests issued. -/
structure SyncResult where
  synced : Bool
  err : Option String
  syncs : List (ResourceLocation × ResourceLocation)

/-- Models `syncCABundleIfNeeded` from external_oidc.go.  Note that a
`cmNeedsSync` error is only logged ("will sync anyway") and forces
`caBundleSyncNeeded = true`; only a `SyncConfigMap` error is returned. -/
def syncCABundleIfNeeded (st : ClusterState) (provider : OIDCProvider) : SyncResult :=
  let r := cmNeedsSync st TargetOIDCCAConfigMapName targetNamespace
    provider.issuer.certificateAuthority.name caBundleSourceNamespace "ca-bundle.crt"
  let caBundleSyncNeeded := if r.2.isSome then true else r.1
  if caBundleSyncNeeded = false then ⟨false, none, []⟩
  else
    let sourceName := provider.issuer.certificateAuthority.name
    let sourceNamespace := if sourceName.length = 0 then "" else caBundleSourceNamespace
    let src : ResourceLocation := ⟨sourceNamespace, sourceName⟩
    match st.syncOutcome targetOIDCCALoc src with
    | some e => ⟨false, some e, [(targetOIDCCALoc, src)]⟩
    | none => ⟨true, none, [(targetOIDCCALoc, src)]⟩

/-! The observeExternalOIDC helper: validation, merge/diff loop, and the
top-level observer. -/

/-- Models `getOIDCClientForComponent`.  The Go function receives the whole
auth resource and indexes `Spec.OIDCProviders[0]`; it is only called after
the exactly-one-provider check, so it receives that single provider here.
The Go loop returns the first matching client config. -/
def getOIDCClientForComponent (provider : OIDCProvider) (name namespc : String) :
    Option OIDCClientConfig :=
  provider.oidcClients.find? (fun cc => cc.componentName == name && cc.componentNamespace == namespc)

/-- The issuer-URL field check (external_oidc.go lines 124-131): parse error
or non-https scheme accumulates an error, otherwise the URL becomes the
`oidc-issuer-url` value. -/
def issuerURLCheck (provider : OIDCProvider) : List String × Option (List UVal) :=
  match urlParse provider.issuer.url with
  | Except.error e => ([e], none)
  | Except.ok scheme =>
      if scheme != "https" then (["https is required for provider URL"], none)
      else ([], some [UVal.str provider.issuer.url])

/-- The client-ID field check (lines 133-138). -/
def clientIDCheck (clientConfig : OIDCClientConfig) : List String × Option (List UVal) :=
  if clientConfig.clientID.length > 0 then ([], some [UVal.str clientConfig.clientID])
  else (["OIDC client ID not set"], none)

/-- An optional claim value: set only when the field is non-empty
(lines 140-148). -/
def claimVal (s : String) : Option (List UVal) :=
  if s.length > 0 then some [UVal.str s] else none

/-- The username-prefix policy switch (lines 150-165).  The Go switch has no
default case, so any unrecognized policy string behaves like NoOpinion. -/
def usernamePfxCheck (provider : OIDCProvider) : List String × Option (List UVal) :=
  match provider.claimMappings.username.prefixPolicy with
  | "" => ([], none)
  | "NoPrefix" => ([], some [UVal.str "-"])
  | "Prefix" =>
      match provider.claimMappings.username.pfx with
      | none => (["nil username prefix while policy expects one"], none)
      | some p => ([], some [UVal.str p.prefixString])
  | _ => ([], none)

/-- One claim-validation rule (lines 169-184): a wrong rule type and a nil
required claim each accumulate an error (in that order); the slice entry
stays the Go nil interface value unless the rule is clean. -/
def ruleCheck (i : Nat) (rule : TokenClaimValidationRule) : List String × UVal :=
  let typeErrs :=
    if rule.type != "RequiredClaim" then ["invalid claim validation rule type: " ++ rule.type]
    else []
  match rule.requiredClaim with
  | none => (typeErrs ++ ["empty validation rule at index " ++ toString i], UVal.null)
  | some rc =>
      if typeErrs.isEmpty then ([], UVal.str (rc.claim ++ "=" ++ rc.requiredValue))
      else (typeErrs, UVal.null)

/-- The claim-validation-rules check (lines 167-185): only performed when the
rule list is non-empty; the value slice has one entry per rule. -/
def rulesCheck (rules : List TokenClaimValidationRule) : List String × Option (List UVal) :=
  if rules.length > 0 then
    let results := rules.enum.map (fun ia => ruleCheck ia.1 ia.2)
    ((results.map Prod.fst).flatten, some (results.map Prod.snd))
  else ([], none)

/-- The `oidcConfigValues` map of `observeExternalOIDC`: at most one value
per OIDC argument path. -/
structure OIDCValues where
  issuerURL : Option (List UVal)
  clientID : Option (List UVal)
  usernameClaim : Option (List UVal)
  usernamePfx : Option (List UVal)
  groupsClaim : Option (List UVal)
  groupsPfx : Option (List UVal)
  requiredClaims : Option (List UVal)
  caFile : Option (List UVal)

/-- Read of the `oidcConfigValues` map at one of the eight argument paths
(the only keys the Go code ever writes). -/
def OIDCValues.lookup (vals : OIDCValues) (p : String) : Option (List UVal) :=
  if p = oidcIssuerURLPath then vals.issuerURL
  else if p = oidcClientIDPath then vals.clientID
  else if p = oidcUsernameClaimPath then vals.usernameClaim
  else if p = oidcUsernamePrefixPath then vals.usernamePfx
  else if p = oidcGroupsClaimPath then vals.groupsClaim
  else if p = oidcGroupsPrefixPath then vals.groupsPfx
  else if p = oidcRequiredClaimPath then vals.requiredClaims
  else if p = oidcCAFilePath then vals.caFile
  else none

/-- The field-validation phase of `observeExternalOIDC` (lines 124-189):
errors accumulate in source order (issuer URL, client ID, username-prefix
policy, validation rules), and each present field yields its argument
value. -/
def validateOIDC (provider : OIDCProvider) (clientConfig : OIDCClientConfig) :
    List String × OIDCValues :=
  ((issuerURLCheck provider).1 ++ (clientIDCheck clientConfig).1
      ++ (usernamePfxCheck provider).1 ++ (rulesCheck provider.claimValidationRules).1,
   ⟨(issuerURLCheck provider).2,
    (clientIDCheck clientConfig).2,
    claimVal provider.claimMappings.username.claim,
    (usernamePfxCheck provider).2,
    claimVal provider.claimMappings.groups.claim,
    claimVal provider.claimMappings.groups.pfx,
    (rulesCheck provider.claimValidationRules).2,
    if provider.issuer.certificateAuthority.name.length > 0
      then some [UVal.str staticCABundleFilePath] else none⟩)

/-- The fixed iteration order of the merge/diff loop (lines 205-214), also
used by `oidcConfigExists`. -/
def oidcArgPaths : List String :=
  [oidcIssuerURLPath, oidcClientIDPath, oidcUsernameClaimPath, oidcUsernamePrefixPath,
   oidcGroupsClaimPath, oidcGroupsPrefixPath, oidcRequiredClaimPath, oidcCAFilePath]

/-- Mutable state of the merge/diff loop. -/
structure LoopState where
  configChanged : Bool
  observedConfig : UObj
  errs : List String
  events : List String

/-- The first half of one loop iteration (lines 214-230): while no change
has been detected yet, read the existing value at the path (an accessor
error accumulates) and compare it against the new value with
`Semantic.DeepEqual` (which equates nil with empty, hence the `getD []` on
both sides). -/
def compareStep (existingConfig : UObj) (vals : OIDCValues) (s : LoopState) (p : String) :
    LoopState :=
  if s.configChanged then s
  else
    match nestedSlice existingConfig [apiServerArgumentsPath, p] with
    | Except.error e => { s with errs := s.errs ++ [e] }
    | Except.ok existingValue =>
        if beqL (existingValue.getD []) ((vals.lookup p).getD []) then s
        else { s with configChanged := true }

/-- The second half of one loop iteration: set the new value into the
observed config when it is configured (a set failure emits an event and
accumulates an error). -/
def setValStep (vals : OIDCValues) (s1 : LoopState) (p : String) : LoopState :=
  match vals.lookup p with
  | none => s1
  | some v =>
      match setNestedSlice s1.observedConfig v [apiServerArgumentsPath, p] with
      | Except.error e =>
          { s1 with events := s1.events ++ ["Failed setting " ++ p], errs := s1.errs ++ [e] }
      | Except.ok o2 => { s1 with observedConfig := o2 }

/-- One full iteration of the merge/diff loop. -/
def mergeDiffStep (existingConfig : UObj) (vals : OIDCValues) (s : LoopState) (p : String) :
    LoopState :=
  setValStep vals (compareStep existingConfig vals s p) p

/-- The merge/diff loop of `observeExternalOIDC` (lines 203-236). -/
def mergeDiffLoop (existingConfig : UObj) (vals : OIDCValues) : LoopState :=
  oidcArgPaths.foldl (mergeDiffStep existingConfig vals) ⟨false, [], [], []⟩

/-- Models the `observeExternalOIDC` helper (external_oidc.go lines 109-247),
invoked when the auth type is OIDC. -/
def observeExternalOIDC (auth : Authentication) (st : ClusterState) (existingConfig : UObj) :
    ObserveResult :=
  match auth.oidcProviders with
  | [provider] =>
      match getOIDCClientForComponent provider componentName targetNamespace with
      | none =>
          ⟨existingConfig,
           ["no OIDC client config found for component " ++ componentName ++ "/" ++ targetNamespace],
           [], []⟩
      | some clientConfig =>
          let v := validateOIDC provider clientConfig
          if v.1.length > 0 then ⟨existingConfig, v.1, [], []⟩
          else
            let sync := syncCABundleIfNeeded st provider
            match sync.err with
            | some e => ⟨existingConfig, [e], [], sync.syncs⟩
            | none =>
                let s := mergeDiffLoop existingConfig v.2
                let events := s.events
                  ++ (if sync.synced then ["ExternalOIDC CA bundle configmap synced"] else [])
                  ++ (if s.configChanged then ["ExternalOIDC configuration changed"] else [])
                ⟨s.observedConfig, s.errs, events, sync.syncs⟩
  | _ =>
      ⟨existingConfig,
       ["exactly one OIDC provider must be configured in authentication.config/cluster resource"],
       [], []⟩

/-- Helper loop of `oidcConfigExists` (lines 329-351). -/
def oidcConfigExistsAux (config : UObj) : List String → Except String Bool
  | [] => Except.ok false
  | p :: rest =>
      match nestedSlice config [apiServerArgumentsPath, p] with
      | Except.error e => Except.error e
      | Except.ok (some _) => Except.ok true
      | Except.ok none => oidcConfigExistsAux config rest

/-- Models `oidcConfigExists`: whether any of the eight OIDC argument paths
is present in the config. -/
def oidcConfigExists (config : UObj) : Except String Bool :=
  oidcConfigExistsAux config oidcArgPaths

/-- Models the `ObserveExternalOIDC` method (external_oidc.go lines 55-107):
feature-gate gating, the auth resource lookup, and the auth-type switch. -/
def ObserveExternalOIDC (st : ClusterState) (existingConfig : UObj) : ObserveResult :=
  if st.fgAccess.initialObserved = false then ⟨existingConfig, [], [], []⟩
  else
    match st.fgAccess.currentGates with
    | Except.error e => ⟨existingConfig, [e], [], []⟩
    | Except.ok featureGates =>
        if featureGates.externalOIDCEnabled = false then ⟨existingConfig, [], [], []⟩
        else
          match st.authLookup with
          | LookupResult.notFound => ⟨existingConfig, [], [], []⟩
          | LookupResult.err e => ⟨existingConfig, [e], [], []⟩
          | LookupResult.found auth =>
              if auth.specType = "IntegratedOAuth" ∨ auth.specType = "None" ∨ auth.specType = "" then
                match st.syncOutcome targetOIDCCALoc emptyLoc with
                | some e => ⟨existingConfig, [e], [], [(targetOIDCCALoc, emptyLoc)]⟩
                | none =>
                    match oidcConfigExists existingConfig with
                    | Except.error e => ⟨existingConfig, [e], [], [(targetOIDCCALoc, emptyLoc)]⟩
                    | Except.ok true =>
                        ⟨[], [], ["Removed ExternalOIDC configuration"], [(targetOIDCCALoc, emptyLoc)]⟩
                    | Except.ok false => ⟨[], [], [], [(targetOIDCCALoc, emptyLoc)]⟩
              else if auth.specType = "OIDC" then observeExternalOIDC auth st existingConfig
              else ⟨existingConfig, ["invalid auth type: " ++ auth.specType], [], []⟩

/-! The RoleBindingRestriction plugins observer
(rolebindingrestrictions.go). -/

/-- Go variable `disableAdmissionPluginsPath`. -/
def disableAdmissionPluginsPath : List String := ["apiServerArguments", "disable-admission-plugins"]

/-- Go variable `rbrPlugins`. -/
def rbrPlugins : List String :=
  ["authorization.openshift.io/RestrictSubjectBindings",
   "authorization.openshift.io/ValidateRoleBindingRestriction"]

/-- Insertion into a sorted duplicate-free string list. -/
def insertSorted (s : String) : List String → List String
  | [] => [s]
  | x :: xs => if s < x then s :: x :: xs else if s = x then x :: xs else x :: insertSorted s xs

/-- Models `sets.NewString(l...).List()`: the sorted duplicate-free list of
the given strings. -/
def sortedSetList (l : List String) : List String :=
  l.foldl (fun acc s => insertSorted s acc) []

/-- Result of one `ObserveRoleBindingRestrictionPlugins` pass (this observer
issues no sync requests). -/
structure RBRResult where
  config : UObj
  errs : List String
  events : List String

/-- Whether an unstructured value is an empty sequence or an empty map. -/
def isEmptyContainer : UVal → Bool
  | UVal.arr [] => true
  | UVal.obj [] => true
  | _ => false

/-- Modelled from the spec: `configobserver.Pruned` of library-go is not
among the provided sources.  Per the spec the PathTree provides
"get/set/prune-by-path semantics" and "a pruning pass removes any path whose
value is empty": the result keeps only the value found at the given path and
drops an empty sequence/map there. -/
def Pruned (o : UObj) (pth : List String) : UObj :=
  match nestedFieldNoCopy o pth with
  | Except.ok (some v) =>
      if isEmptyContainer v then []
      else
        match setNestedField [] v pth with
        | Except.ok o2 => o2
        | Except.error _ => []
  | _ => []

/-- The body of `ObserveRoleBindingRestrictionPlugins`
(rolebindingrestrictions.go lines 30-66), before the deferred prune is
applied to the returned config. -/
def rbrObserveRaw (st : ClusterState) (existingConfig : UObj) : RBRResult :=
  match st.authLookup with
  | LookupResult.notFound => ⟨[], [], ["authentications.config.openshift.io/cluster: not found"]⟩
  | LookupResult.err e => ⟨existingConfig, [e], []⟩
  | LookupResult.found auth =>
      if auth.specType = "IntegratedOAuth" ∨ auth.specType.length = 0 then ⟨existingConfig, [], []⟩
      else
        match nestedStringSlice existingConfig disableAdmissionPluginsPath with
        | Except.error e => ⟨existingConfig, [e], []⟩
        | Except.ok disabled =>
            let disabledSet := sortedSetList (disabled.getD [] ++ rbrPlugins)
            match setNestedStringSlice [] disabledSet disableAdmissionPluginsPath with
            | Except.error e => ⟨existingConfig, [e], []⟩
            | Except.ok observedConfig => ⟨observedConfig, [], []⟩

/-- Models `ObserveRoleBindingRestrictionPlugins`: the Go `defer` applies
`Pruned` to every returned config. -/
def ObserveRoleBindingRestrictionPlugins (st : ClusterState) (existingConfig : UObj) : RBRResult :=
  ⟨Pruned (rbrObserveRaw st existingConfig).config disableAdmissionPluginsPath,
   (rbrObserveRaw st existingConfig).errs, (rbrObserveRaw st existingConfig).events⟩

/-! Concrete cluster-state fixtures used by witnesses and counterexamples. -/

/-- An OIDC client config entry for the kube-apiserver component. -/
def kasClient (id : String) : OIDCClientConfig :=
  ⟨"kube-apiserver", "openshift-kube-apiserver", id⟩

/-- A minimal valid provider: issuer `https://idp.example.com`, client id
`abc` for the kube-apiserver component, username claim `sub`, the given
username-prefix policy, the given CA bundle reference, no groups mapping and
no validation rules. -/
def scenarioProvider (policy : String) (caName : String) : OIDCProvider :=
  ⟨"test", ⟨"https://idp.example.com", ⟨caName⟩⟩, [kasClient "abc"],
   ⟨⟨"sub", policy, none⟩, ⟨"", ""⟩⟩, []⟩

/-- Feature gates: initial snapshot observed, ExternalOIDC enabled. -/
def gatesOn : FeatureGateAccess := ⟨true, Except.ok ⟨true⟩⟩

/-- State for end-to-end scenario A: OIDC auth type, provider with no
username-prefix policy, no configmaps present, sync requests succeed. -/
def stScenarioA : ClusterState :=
  ⟨gatesOn, LookupResult.found ⟨"OIDC", [scenarioProvider "" ""]⟩,
   fun _ _ => LookupResult.notFound, fun _ _ => none⟩

/-- State for end-to-end scenario B: as A but with the NoPrefix policy. -/
def stScenarioB : ClusterState :=
  ⟨gatesOn, LookupResult.found ⟨"OIDC", [scenarioProvider "NoPrefix" ""]⟩,
   fun _ _ => LookupResult.notFound, fun _ _ => none⟩

/-- State in which the authentication resource lookup reports not-found. -/
def stAuthMissing : ClusterState :=
  ⟨gatesOn, LookupResult.notFound, fun _ _ => LookupResult.notFound, fun _ _ => none⟩

/-- An existing config carrying an OIDC argument. -/
def existingWithOIDC : UObj :=
  [(apiServerArgumentsPath, UVal.obj [(oidcIssuerURLPath, UVal.arr [UVal.str "https://old.example.com"])])]

/-- An existing config whose value at the issuer path is a string rather
than a slice (malformed for the observer's accessor). -/
def existingMalformed : UObj :=
  [(apiServerArgumentsPath, UVal.obj [(oidcIssuerURLPath, UVal.str "zap")])]

/-- Configmap fixtures mirroring the repository's `TestCMNeedsSync` data:
`cm1` in `ns1` is the target, `cm2` in `ns2` the source; `key1` exists only
in the target, `key2` only in the source, `key3` in neither. -/
def stCMFixtures : ClusterState :=
  ⟨gatesOn, LookupResult.notFound,
   fun ns n =>
     if ns = "ns1" && n = "cm1" then
       LookupResult.found ⟨[("keyA", "aaa"), ("keyB", "bbb"), ("key1", "val1")]⟩
     else if ns = "ns2" && n = "cm2" then
       LookupResult.found ⟨[("keyA", "aaa"), ("keyB", "bbbbbb"), ("key2", "val2")]⟩
     else LookupResult.notFound,
   fun _ _ => none⟩

/-- State in which the provider names a CA bundle configmap that does not
exist in the source namespace, while the mirror target does exist. -/
def stMissingSourceCA : ClusterState :=
  ⟨gatesOn, LookupResult.found ⟨"OIDC", [scenarioProvider "" "missing-ca"]⟩,
   fun ns n =>
     if ns = "openshift-kube-apiserver" && n = "oidc-serving-ca-bundle" then
       LookupResult.found ⟨[("ca-bundle.crt", "x")]⟩
     else LookupResult.notFound,
   fun _ _ => none⟩

/-- State in which the CA bundle mirror has converged: target and named
source configmap both exist with identical `ca-bundle.crt` content. -/
def stConvergedCA : ClusterState :=
  ⟨gatesOn, LookupResult.found ⟨"OIDC", [scenarioProvider "" "oidc-ca"]⟩,
   fun ns n =>
     if ns = "openshift-kube-apiserver" && n = "oidc-serving-ca-bundle" then
       LookupResult.found ⟨[("ca-bundle.crt", "x")]⟩
     else if ns = "openshift-config" && n = "oidc-ca" then
       LookupResult.found ⟨[("ca-bundle.crt", "x")]⟩
     else LookupResult.notFound,
   fun _ _ => none⟩

/-! Claim C2: feature-gate gating. -/

/-- C2: for every existing config and upstream state, if the feature-gate
accessor reports that no initial snapshot has been observed yet,
`ObserveExternalOIDC` returns the existing config unchanged with an empty
error list, emits no events, and issues no sync requests. -/
theorem observe_gating_returns_existing (st : ClusterState) (existingConfig : UObj)
    (h : st.fgAccess.initialObserved = false) :
    ObserveExternalOIDC st existingConfig = ⟨existingConfig, [], [], []⟩ := by
  unfold ObserveExternalOIDC
  rw [h]
  rfl

/-- Witness for C2 at a concrete state with gates not yet observed. -/
theorem observe_gating_returns_existing_witness :
    ObserveExternalOIDC
      ⟨⟨false, Except.ok ⟨true⟩⟩, LookupResult.notFound,
       fun _ _ => LookupResult.notFound, fun _ _ => none⟩ existingWithOIDC
      = ⟨existingWithOIDC, [], [], []⟩ :=
  observe_gating_returns_existing _ _ rfl

/-! Claim C7: the username-prefix mapping, end-to-end scenarios A and B. -/

/-- C7: for a valid provider with issuer `https://idp.example.com`, client id
`abc` and username claim `sub`: with the prefix policy unset the emitted
fragment carries the issuer URL, client id and username claim and no
`oidc-username-prefix` key; with the NoPrefix policy it additionally carries
`oidc-username-prefix=["-"]`. -/
theorem observe_username_prefix_mapping :
    nestedSlice (ObserveExternalOIDC stScenarioA []).config
        [apiServerArgumentsPath, oidcIssuerURLPath]
      = Except.ok (some [UVal.str "https://idp.example.com"]) ∧
    nestedSlice (ObserveExternalOIDC stScenarioA []).config
        [apiServerArgumentsPath, oidcClientIDPath]
      = Except.ok (some [UVal.str "abc"]) ∧
    nestedSlice (ObserveExternalOIDC stScenarioA []).config
        [apiServerArgumentsPath, oidcUsernameClaimPath]
      = Except.ok (some [UVal.str "sub"]) ∧
    nestedSlice (ObserveExternalOIDC stScenarioA []).config
        [apiServerArgumentsPath, oidcUsernamePrefixPath]
      = Except.ok none ∧
    nestedSlice (ObserveExternalOIDC stScenarioB []).config
        [apiServerArgumentsPath, oidcIssuerURLPath]
      = Except.ok (some [UVal.str "https://idp.example.com"]) ∧
    nestedSlice (ObserveExternalOIDC stScenarioB []).config
        [apiServerArgumentsPath, oidcClientIDPath]
      = Except.ok (some [UVal.str "abc"]) ∧
    nestedSlice (ObserveExternalOIDC stScenarioB []).config
        [apiServerArgumentsPath, oidcUsernameClaimPath]
      = Except.ok (some [UVal.str "sub"]) ∧
    nestedSlice (ObserveExternalOIDC stScenarioB []).config
        [apiServerArgumentsPath, oidcUsernamePrefixPath]
      = Except.ok (some [UVal.str "-"]) :=
  ⟨rfl, rfl, rfl, rfl, rfl, rfl, rfl, rfl⟩

/-! Claim C4: behaviour on upstream disappearance. -/

/-- C4 counterexample: with the gate enabled and the authentication resource
lookup reporting not-found while the existing config contains OIDC
arguments, `ObserveExternalOIDC` returns the existing non-empty tree with no
events and no sync requests — not an empty tree with a removal event and a
deletion sync request as the claim states. -/
theorem observe_auth_missing_counterexample :
    ObserveExternalOIDC stAuthMissing existingWithOIDC = ⟨existingWithOIDC, [], [], []⟩
      ∧ existingWithOIDC ≠ [] := by
  refine ⟨rfl, ?_⟩
  simp [existingWithOIDC]

/-- C4 amended: with the gate enabled, a not-found authentication resource is
a soft no-op: the existing config is returned with no errors, no events and
no sync requests.  The hard reset — empty tree, removal event, mirror
request with empty source — happens when the resource exists with type
IntegratedOAuth, None or empty while the existing config contains OIDC
arguments (and the deletion sync succeeds). -/
theorem observe_absence_soft_noop_and_type_hard_reset
    (st : ClusterState) (existingConfig : UObj) (g : FeatureGates)
    (h1 : st.fgAccess.initialObserved = true)
    (h2 : st.fgAccess.currentGates = Except.ok g)
    (h3 : g.externalOIDCEnabled = true) :
    (st.authLookup = LookupResult.notFound →
      ObserveExternalOIDC st existingConfig = ⟨existingConfig, [], [], []⟩) ∧
    (∀ auth, st.authLookup = LookupResult.found auth →
      (auth.specType = "IntegratedOAuth" ∨ auth.specType = "None" ∨ auth.specType = "") →
      st.syncOutcome targetOIDCCALoc emptyLoc = none →
      oidcConfigExists existingConfig = Except.ok true →
      ObserveExternalOIDC st existingConfig
        = ⟨[], [], ["Removed ExternalOIDC configuration"], [(targetOIDCCALoc, emptyLoc)]⟩) := by
  constructor
  · intro h4
    simp [ObserveExternalOIDC, h1, h2, h3, h4]
  · intro auth h4 h5 h6 h7
    simp [ObserveExternalOIDC, h1, h2, h3, h4, h5, h6, h7]

/-- A state whose authentication resource has type IntegratedOAuth. -/
def stIntOAuth : ClusterState :=
  ⟨gatesOn, LookupResult.found ⟨"IntegratedOAuth", []⟩,
   fun _ _ => LookupResult.notFound, fun _ _ => none⟩

/-- Witness for the amended C4 at a concrete state: the hard reset on the
IntegratedOAuth type with existing OIDC arguments. -/
theorem observe_absence_soft_noop_and_type_hard_reset_witness :
    ObserveExternalOIDC stIntOAuth existingWithOIDC
      = ⟨[], [], ["Removed ExternalOIDC configuration"], [(targetOIDCCALoc, emptyLoc)]⟩ :=
  (observe_absence_soft_noop_and_type_hard_reset stIntOAuth existingWithOIDC ⟨true⟩
    rfl rfl rfl).2 ⟨"IntegratedOAuth", []⟩ rfl (Or.inl rfl) rfl rfl

/-! Claim C5: the three-way comparison-key rule of cmNeedsSync. -/

/-- C5 counterexample: a key present only in the target configmap (`key1` of
the test fixtures) makes `cmNeedsSync` return an error with needsSync=false,
not needsSync=true as the claim states. -/
theorem cmNeedsSync_key_only_in_target_counterexample :
    cmNeedsSync stCMFixtures "cm1" "ns1" "cm2" "ns2" "key1"
      = (false, some "key key1 not found in source configmap") := rfl

/-- C5 amended: with an existing target, a non-empty named source that is
found, and a non-empty comparison key: a key present in both configmaps
yields needsSync exactly when the values differ (no error); a key present
only in the target yields an error and needsSync=false; a key present only
in the source yields needsSync=true; a key present in neither yields an
error and needsSync=false. -/
theorem cmNeedsSync_comparison_key_rule
    (st : ClusterState) (dn dns sn sns key : String) (cmT cmS : ConfigMap)
    (hT : st.cmLookup dns dn = LookupResult.found cmT)
    (hS : st.cmLookup sns sn = LookupResult.found cmS)
    (hsn : sn.length ≠ 0) (hk : key.length ≠ 0) :
    (∀ v1 v2, lookupStr cmT.data key = some v1 → lookupStr cmS.data key = some v2 →
      cmNeedsSync st dn dns sn sns key = (v1 != v2, none)) ∧
    (∀ v1, lookupStr cmT.data key = some v1 → lookupStr cmS.data key = none →
      cmNeedsSync st dn dns sn sns key
        = (false, some ("key " ++ key ++ " not found in source configmap"))) ∧
    (∀ v2, lookupStr cmT.data key = none → lookupStr cmS.data key = some v2 →
      cmNeedsSync st dn dns sn sns key = (true, none)) ∧
    (lookupStr cmT.data key = none → lookupStr cmS.data key = none →
      cmNeedsSync st dn dns sn sns key
        = (false, some ("key " ++ key ++ " not found in either configmap"))) := by
  refine ⟨?_, ?_, ?_, ?_⟩
  · intro v1 v2 hv1 hv2
    simp [cmNeedsSync, hT, hS, hsn, hk, hv1, hv2]
  · intro v1 hv1 hv2
    simp [cmNeedsSync, hT, hS, hsn, hk, hv1, hv2]
  · intro v2 hv1 hv2
    simp [cmNeedsSync, hT, hS, hsn, hk, hv1, hv2]
  · intro hv1 hv2
    simp [cmNeedsSync, hT, hS, hsn, hk, hv1, hv2]

/-- Witness for the amended C5 on the test fixtures: both-present key with
different values. -/
theorem cmNeedsSync_comparison_key_rule_witness :
    cmNeedsSync stCMFixtures "cm1" "ns1" "cm2" "ns2" "keyB" = (true, none) :=
  (cmNeedsSync_comparison_key_rule stCMFixtures "cm1" "ns1" "cm2" "ns2" "keyB"
      ⟨[("keyA", "aaa"), ("keyB", "bbb"), ("key1", "val1")]⟩
      ⟨[("keyA", "aaa"), ("keyB", "bbbbbb"), ("key2", "val2")]⟩
      rfl rfl (by decide) (by decide)).1 "bbb" "bbbbbb" rfl rfl

/-! Claim C6: configmap lookup failures during the CA-bundle mirror
decision. -/

/-- C6 counterexample: with a named source CA configmap that cannot be found
(state `stMissingSourceCA`), the observer pass returns no error at all and
does issue a mirror request — the lookup error is swallowed and the sync
proceeds, contrary to the claim. -/
theorem observe_missing_source_ca_counterexample :
    (ObserveExternalOIDC stMissingSourceCA []).errs = [] ∧
    (ObserveExternalOIDC stMissingSourceCA []).syncs
      = [(targetOIDCCALoc, ⟨caBundleSourceNamespace, "missing-ca"⟩)] :=
  ⟨rfl, rfl⟩

/-- C6 amended: an error from the configmap lookups of the mirror decision
(`cmNeedsSync`) is not propagated: `syncCABundleIfNeeded` logs it, treats
the bundle as needing a sync, and issues the mirror request anyway; only an
error of the mirror request itself is surfaced (and is then returned with
the existing tree by the observer pass). -/
theorem syncCABundle_lookup_error_syncs_anyway
    (st : ClusterState) (provider : OIDCProvider) (b : Bool) (e : String)
    (h : cmNeedsSync st TargetOIDCCAConfigMapName targetNamespace
        provider.issuer.certificateAuthority.name caBundleSourceNamespace "ca-bundle.crt"
      = (b, some e)) :
    syncCABundleIfNeeded st provider =
      match st.syncOutcome targetOIDCCALoc
          ⟨if provider.issuer.certificateAuthority.name.length = 0 then ""
            else caBundleSourceNamespace,
           provider.issuer.certificateAuthority.name⟩ with
      | some e2 =>
          ⟨false, some e2,
           [(targetOIDCCALoc,
             ⟨if provider.issuer.certificateAuthority.name.length = 0 then ""
               else caBundleSourceNamespace,
              provider.issuer.certificateAuthority.name⟩)]⟩
      | none =>
          ⟨true, none,
           [(targetOIDCCALoc,
             ⟨if provider.issuer.certificateAuthority.name.length = 0 then ""
               else caBundleSourceNamespace,
              provider.issuer.certificateAuthority.name⟩)]⟩ := by
  unfold syncCABundleIfNeeded
  simp only [h, Option.isSome_some, if_true]
  rfl

/-- Witness for the amended C6: at `stMissingSourceCA` the lookup of the
named source errs, yet the sync request is issued and reported successful. -/
theorem syncCABundle_lookup_error_syncs_anyway_witness :
    syncCABundleIfNeeded stMissingSourceCA (scenarioProvider "" "missing-ca")
      = ⟨true, none, [(targetOIDCCALoc, ⟨caBundleSourceNamespace, "missing-ca"⟩)]⟩ := by
  have h := syncCABundle_lookup_error_syncs_anyway stMissingSourceCA
    (scenarioProvider "" "missing-ca") false
    ("configmap " ++ caBundleSourceNamespace ++ "/missing-ca not found") rfl
  exact h

/-! Claim C3: error atomicity. -/

/-- C3 counterexample: when the existing config holds a non-slice value at an
OIDC argument path, the merge/diff loop accumulates an accessor error yet
the observer returns the newly built fragment (not the existing config)
together with that non-empty error list. -/
theorem observe_error_with_new_fragment_counterexample :
    (ObserveExternalOIDC stScenarioA existingMalformed).errs
      = ["accessor error: value at apiServerArguments.oidc-issuer-url is not a slice"] ∧
    (ObserveExternalOIDC stScenarioA existingMalformed).config
      = [(apiServerArgumentsPath, UVal.obj
          [(oidcIssuerURLPath, UVal.arr [UVal.str "https://idp.example.com"]),
           (oidcClientIDPath, UVal.arr [UVal.str "abc"]),
           (oidcUsernameClaimPath, UVal.arr [UVal.str "sub"])])] ∧
    (ObserveExternalOIDC stScenarioA existingMalformed).config ≠ existingMalformed := by
  refine ⟨rfl, rfl, ?_⟩
  intro hEq
  rw [show (ObserveExternalOIDC stScenarioA existingMalformed).config
      = [(apiServerArgumentsPath, UVal.obj
          [(oidcIssuerURLPath, UVal.arr [UVal.str "https://idp.example.com"]),
           (oidcClientIDPath, UVal.arr [UVal.str "abc"]),
           (oidcUsernameClaimPath, UVal.arr [UVal.str "sub"])])] from rfl] at hEq
  simp [existingMalformed] at hEq

/-- C3 amended: whenever `ObserveExternalOIDC` returns a non-empty error
list, either the returned tree is exactly the existing config (all errors
raised before the merge/diff loop: gating, lookups, admission invariants,
field validation, CA sync), or the pass reached the merge/diff loop cleanly
and every returned error arose inside the loop, in which case the newly
built fragment is returned with them. -/
theorem observe_error_atomicity_amended (st : ClusterState) (existingConfig : UObj)
    (h : (ObserveExternalOIDC st existingConfig).errs ≠ []) :
    (ObserveExternalOIDC st existingConfig).config = existingConfig ∨
    ∃ auth provider cc,
      st.authLookup = LookupResult.found auth ∧ auth.specType = "OIDC" ∧
      auth.oidcProviders = [provider] ∧
      getOIDCClientForComponent provider componentName targetNamespace = some cc ∧
      (validateOIDC provider cc).1 = [] ∧
      (syncCABundleIfNeeded st provider).err = none ∧
      (ObserveExternalOIDC st existingConfig).errs
        = (mergeDiffLoop existingConfig (validateOIDC provider cc).2).errs ∧
      (ObserveExternalOIDC st existingConfig).config
        = (mergeDiffLoop existingConfig (validateOIDC provider cc).2).observedConfig := by
  cases hb : st.fgAccess.initialObserved with
  | false => left; simp [ObserveExternalOIDC, hb]
  | true =>
    cases hcg : st.fgAccess.currentGates with
    | error e => left; simp [ObserveExternalOIDC, hb, hcg]
    | ok g =>
      cases hen : g.externalOIDCEnabled with
      | false => left; simp [ObserveExternalOIDC, hb, hcg, hen]
      | true =>
        cases hal : st.authLookup with
        | notFound => left; simp [ObserveExternalOIDC, hb, hcg, hen, hal]
        | err e => left; simp [ObserveExternalOIDC, hb, hcg, hen, hal]
        | found auth =>
          by_cases hty : auth.specType = "IntegratedOAuth" ∨ auth.specType = "None"
              ∨ auth.specType = ""
          · cases hso : st.syncOutcome targetOIDCCALoc emptyLoc with
            | some e => left; simp [ObserveExternalOIDC, hb, hcg, hen, hal, hty, hso]
            | none =>
              cases hex : oidcConfigExists existingConfig with
              | error e => left; simp [ObserveExternalOIDC, hb, hcg, hen, hal, hty, hso, hex]
              | ok oidcExists =>
                exfalso
                apply h
                cases oidcExists <;>
                  simp [ObserveExternalOIDC, hb, hcg, hen, hal, hty, hso, hex]
          · by_cases hO : auth.specType = "OIDC"
            · have hred : ObserveExternalOIDC st existingConfig
                  = observeExternalOIDC auth st existingConfig := by
                simp [ObserveExternalOIDC, hb, hcg, hen, hal, hty, hO]
              rw [hred] at h ⊢
              cases hp : auth.oidcProviders with
              | nil => left; simp [observeExternalOIDC, hp]
              | cons provider rest =>
                cases rest with
                | cons p2 r2 => left; simp [observeExternalOIDC, hp]
                | nil =>
                  cases hcc : getOIDCClientForComponent provider componentName targetNamespace with
                  | none => left; simp [observeExternalOIDC, hp, hcc]
                  | some cc =>
                    by_cases hv : (validateOIDC provider cc).1.length > 0
                    · left; simp [observeExternalOIDC, hp, hcc, hv]
                    · have hv0 : (validateOIDC provider cc).1 = [] :=
                        List.length_eq_zero.mp (Nat.eq_zero_of_not_pos hv)
                      cases hse : (syncCABundleIfNeeded st provider).err with
                      | some e => left; simp [observeExternalOIDC, hp, hcc, hv, hse]
                      | none =>
                        right
                        refine ⟨auth, provider, cc, rfl, hO, hp, hcc, hv0, hse, ?_, ?_⟩ <;>
                          simp [observeExternalOIDC, hp, hcc, hv, hse]
            · left; simp [ObserveExternalOIDC, hb, hcg, hen, hal, hty, hO]

/-- Witness for the amended C3 at the malformed-existing-config state: the
pass reached the merge/diff loop and returned its fragment and errors. -/
theorem observe_error_atomicity_amended_witness :
    (ObserveExternalOIDC stScenarioA existingMalformed).config = existingMalformed ∨
    ∃ auth provider cc,
      stScenarioA.authLookup = LookupResult.found auth ∧ auth.specType = "OIDC" ∧
      auth.oidcProviders = [provider] ∧
      getOIDCClientForComponent provider componentName targetNamespace = some cc ∧
      (validateOIDC provider cc).1 = [] ∧
      (syncCABundleIfNeeded stScenarioA provider).err = none ∧
      (ObserveExternalOIDC stScenarioA existingMalformed).errs
        = (mergeDiffLoop existingMalformed (validateOIDC provider cc).2).errs ∧
      (ObserveExternalOIDC stScenarioA existingMalformed).config
        = (mergeDiffLoop existingMalformed (validateOIDC provider cc).2).observedConfig :=
  observe_error_atomicity_amended stScenarioA existingMalformed (by
    rw [show (ObserveExternalOIDC stScenarioA existingMalformed).errs
        = ["accessor error: value at apiServerArguments.oidc-issuer-url is not a slice"] from rfl]
    simp)

/-! Claim C8: required-field enforcement for the client ID. -/

/-- C8: with the gate enabled, an OIDC auth resource with exactly one
provider whose kube-apiserver client config has an empty client ID makes the
observer return the existing tree together with a non-empty error list
containing the "OIDC client ID not set" error. -/
theorem observe_empty_client_id_errors
    (st : ClusterState) (existingConfig : UObj) (g : FeatureGates)
    (auth : Authentication) (provider : OIDCProvider) (cc : OIDCClientConfig)
    (h1 : st.fgAccess.initialObserved = true)
    (h2 : st.fgAccess.currentGates = Except.ok g)
    (h3 : g.externalOIDCEnabled = true)
    (h4 : st.authLookup = LookupResult.found auth)
    (h5 : auth.specType = "OIDC")
    (h6 : auth.oidcProviders = [provider])
    (h7 : getOIDCClientForComponent provider componentName targetNamespace = some cc)
    (h8 : cc.clientID = "") :
    (ObserveExternalOIDC st existingConfig).config = existingConfig ∧
    (ObserveExternalOIDC st existingConfig).errs ≠ [] ∧
    "OIDC client ID not set" ∈ (ObserveExternalOIDC st existingConfig).errs := by
  have hred : ObserveExternalOIDC st existingConfig
      = observeExternalOIDC auth st existingConfig := by
    simp [ObserveExternalOIDC, h1, h2, h3, h4, h5]
  have hmem : "OIDC client ID not set" ∈ (validateOIDC provider cc).1 := by
    simp [validateOIDC, clientIDCheck, h8]
  have hne : (validateOIDC provider cc).1 ≠ [] := List.ne_nil_of_mem hmem
  have hlen : (validateOIDC provider cc).1.length > 0 := List.length_pos.mpr hne
  rw [hred]
  refine ⟨?_, ?_, ?_⟩
  · simp [observeExternalOIDC, h6, h7, hlen]
  · simpa [observeExternalOIDC, h6, h7, hlen] using hne
  · simpa [observeExternalOIDC, h6, h7, hlen] using hmem

/-- State with an OIDC provider whose kube-apiserver client id is empty. -/
def stEmptyClientID : ClusterState :=
  ⟨gatesOn,
   LookupResult.found ⟨"OIDC",
     [⟨"test", ⟨"https://idp.example.com", ⟨""⟩⟩, [kasClient ""],
       ⟨⟨"sub", "", none⟩, ⟨"", ""⟩⟩, []⟩]⟩,
   fun _ _ => LookupResult.notFound, fun _ _ => none⟩

/-- Witness for C8 at a concrete state with an empty client id. -/
theorem observe_empty_client_id_errors_witness :
    (ObserveExternalOIDC stEmptyClientID existingWithOIDC).config = existingWithOIDC ∧
    (ObserveExternalOIDC stEmptyClientID existingWithOIDC).errs ≠ [] ∧
    "OIDC client ID not set" ∈ (ObserveExternalOIDC stEmptyClientID existingWithOIDC).errs :=
  observe_empty_client_id_errors stEmptyClientID existingWithOIDC ⟨true⟩
    ⟨"OIDC", [⟨"test", ⟨"https://idp.example.com", ⟨""⟩⟩, [kasClient ""],
      ⟨⟨"sub", "", none⟩, ⟨"", ""⟩⟩, []⟩]⟩
    ⟨"test", ⟨"https://idp.example.com", ⟨""⟩⟩, [kasClient ""],
      ⟨⟨"sub", "", none⟩, ⟨"", ""⟩⟩, []⟩
    (kasClient "") rfl rfl rfl rfl rfl rfl rfl rfl

/-! Lemmas about the sorted string set and the two-level path helpers. -/

/-- Membership in `insertSorted`. -/
theorem mem_insertSorted (a s : String) (l : List String) :
    a ∈ insertSorted s l ↔ a = s ∨ a ∈ l := by
  induction l with
  | nil => simp [insertSorted]
  | cons x xs ih =>
      unfold insertSorted
      by_cases h1 : s < x
      · simp [h1]
      · by_cases h2 : s = x
        · subst h2
          simp [h1]
        · simp [h1, h2, ih]
          tauto

/-- Membership after folding `insertSorted` over a list. -/
theorem mem_foldl_insertSorted (a : String) (l acc : List String) :
    a ∈ l.foldl (fun acc2 s => insertSorted s acc2) acc ↔ a ∈ acc ∨ a ∈ l := by
  induction l generalizing acc with
  | nil => simp
  | cons x xs ih =>
      rw [List.foldl_cons, ih, mem_insertSorted]
      simp
      tauto

/-- Membership in `sortedSetList` is membership in the input. -/
theorem mem_sortedSetList (a : String) (l : List String) :
    a ∈ sortedSetList l ↔ a ∈ l := by
  unfold sortedSetList
  rw [mem_foldl_insertSorted]
  simp

/-- `asStringList` inverts `map UVal.str`. -/
theorem asStringList_map_str (l : List String) : asStringList (l.map UVal.str) = some l := by
  induction l with
  | nil => rfl
  | cons x xs ih => simp [asStringList, ih]

/-- Setting a value into the empty tree along a two-segment path. -/
theorem setNestedField_nil_two (a b : String) (v : UVal) :
    setNestedField [] v [a, b] = Except.ok [(a, UVal.obj [(b, v)])] := rfl

/-- `setNestedStringSlice` into the empty tree along a two-segment path. -/
theorem setNestedStringSlice_nil_two (a b : String) (l : List String) :
    setNestedStringSlice [] l [a, b]
      = Except.ok [(a, UVal.obj [(b, UVal.arr (l.map UVal.str))])] := rfl

/-- `Pruned` along a two-segment path yields either the empty tree or the
single-path tree with a non-empty value. -/
theorem Pruned_shape (o : UObj) (a b : String) :
    Pruned o [a, b] = [] ∨
    ∃ v, Pruned o [a, b] = [(a, UVal.obj [(b, v)])] ∧ isEmptyContainer v = false := by
  unfold Pruned
  cases h : nestedFieldNoCopy o [a, b] with
  | error e => left; rfl
  | ok vo =>
      cases vo with
      | none => left; rfl
      | some v =>
          by_cases hv : isEmptyContainer v
          · left; simp [hv]
          · right
            refine ⟨v, ?_, by simpa using hv⟩
            simp [hv, setNestedField_nil_two]

/-- `Pruned` keeps a non-empty value sitting exactly at the two-segment
path. -/
theorem Pruned_two_level (a b : String) (v : UVal) (hv : isEmptyContainer v = false) :
    Pruned [(a, UVal.obj [(b, v)])] [a, b] = [(a, UVal.obj [(b, v)])] := by
  unfold Pruned
  have hn : nestedFieldNoCopy [(a, UVal.obj [(b, v)])] [a, b] = Except.ok (some v) := by
    simp [nestedFieldNoCopy, lookupKey]
  rw [hn]
  simp [hv, setNestedField_nil_two]

/-- Reading back a string slice stored at a two-segment path. -/
theorem nestedStringSlice_two_level (a b : String) (l : List String) :
    nestedStringSlice [(a, UVal.obj [(b, UVal.arr (l.map UVal.str))])] [a, b]
      = Except.ok (some l) := by
  simp [nestedStringSlice, nestedSlice, nestedFieldNoCopy, lookupKey, asStringList_map_str]

/-! Claim C9: union semantics of disable-admission-plugins. -/

/-- C9: when the authentication type is neither IntegratedOAuth nor empty
and the existing disable-admission-plugins entry reads back cleanly, the
emitted sequence contains every existing entry plus both
RoleBindingRestriction plugin names. -/
theorem rbr_disable_plugins_union
    (st : ClusterState) (existingConfig : UObj) (auth : Authentication)
    (disabled : Option (List String))
    (h1 : st.authLookup = LookupResult.found auth)
    (h2 : auth.specType ≠ "IntegratedOAuth")
    (h3 : auth.specType.length ≠ 0)
    (h4 : nestedStringSlice existingConfig disableAdmissionPluginsPath = Except.ok disabled) :
    ∃ l, nestedStringSlice (ObserveRoleBindingRestrictionPlugins st existingConfig).config
          disableAdmissionPluginsPath = Except.ok (some l) ∧
      (∀ x ∈ disabled.getD [], x ∈ l) ∧ (∀ x ∈ rbrPlugins, x ∈ l) := by
  refine ⟨sortedSetList (disabled.getD [] ++ rbrPlugins), ?_, ?_, ?_⟩
  · have hne : sortedSetList (disabled.getD [] ++ rbrPlugins) ≠ [] := by
      intro h0
      have hmem : "authorization.openshift.io/RestrictSubjectBindings"
          ∈ sortedSetList (disabled.getD [] ++ rbrPlugins) := by
        rw [mem_sortedSetList]
        refine List.mem_append_right _ ?_
        simp [rbrPlugins]
      rw [h0] at hmem
      exact absurd hmem (List.not_mem_nil _)
    have hvF : isEmptyContainer
        (UVal.arr ((sortedSetList (disabled.getD [] ++ rbrPlugins)).map UVal.str)) = false := by
      cases hl : sortedSetList (disabled.getD [] ++ rbrPlugins) with
      | nil => exact absurd hl hne
      | cons x xs => rfl
    have h4u : nestedStringSlice existingConfig
        ["apiServerArguments", "disable-admission-plugins"] = Except.ok disabled := h4
    have hraw : rbrObserveRaw st existingConfig
        = ⟨[("apiServerArguments", UVal.obj [("disable-admission-plugins",
            UVal.arr ((sortedSetList (disabled.getD [] ++ rbrPlugins)).map UVal.str))])],
           [], []⟩ := by
      simp [rbrObserveRaw, h1, h2, h3, h4u, disableAdmissionPluginsPath,
        setNestedStringSlice_nil_two]
    have hcfg : (ObserveRoleBindingRestrictionPlugins st existingConfig).config
        = [("apiServerArguments", UVal.obj [("disable-admission-plugins",
            UVal.arr ((sortedSetList (disabled.getD [] ++ rbrPlugins)).map UVal.str))])] := by
      show Pruned (rbrObserveRaw st existingConfig).config disableAdmissionPluginsPath = _
      rw [hraw]
      show Pruned _ ["apiServerArguments", "disable-admission-plugins"] = _
      exact Pruned_two_level _ _ _ hvF
    rw [hcfg]
    show nestedStringSlice _ ["apiServerArguments", "disable-admission-plugins"] = _
    exact nestedStringSlice_two_level _ _ _
  · intro x hx
    rw [mem_sortedSetList]
    exact List.mem_append_left _ hx
  · intro x hx
    rw [mem_sortedSetList]
    exact List.mem_append_right _ hx

/-- A state whose authentication resource has type OIDC and no providers
(enough for the plugins observer, which only reads the type). -/
def stOIDCTypeOnly : ClusterState :=
  ⟨gatesOn, LookupResult.found ⟨"OIDC", []⟩, fun _ _ => LookupResult.notFound, fun _ _ => none⟩

/-- An existing config with one externally-set disabled plugin. -/
def existingDisabledPlugins : UObj :=
  [("apiServerArguments", UVal.obj [("disable-admission-plugins", UVal.arr [UVal.str "zzz"])])]

/-- Witness for C9 at a concrete state with an externally-set entry. -/
theorem rbr_disable_plugins_union_witness :
    ∃ l, nestedStringSlice
          (ObserveRoleBindingRestrictionPlugins stOIDCTypeOnly existingDisabledPlugins).config
          disableAdmissionPluginsPath = Except.ok (some l) ∧
      (∀ x ∈ (some ["zzz"] : Option (List String)).getD [], x ∈ l) ∧
      (∀ x ∈ rbrPlugins, x ∈ l) :=
  rbr_disable_plugins_union stOIDCTypeOnly existingDisabledPlugins ⟨"OIDC", []⟩
    (some ["zzz"]) rfl (by decide) (by decide) rfl

/-! Claim C10: every returned config of the plugins observer is pruned to
the disable-admission-plugins path. -/

/-- C10: every value returned by `ObserveRoleBindingRestrictionPlugins` —
including the error returns that nominally hand back the existing config —
is pruned to the apiServerArguments.disable-admission-plugins path: the
result is either empty or carries exactly that path with a non-empty value,
with no other keys. -/
theorem rbr_result_pruned_shape (st : ClusterState) (existingConfig : UObj) :
    (ObserveRoleBindingRestrictionPlugins st existingConfig).config = [] ∨
    ∃ v, (ObserveRoleBindingRestrictionPlugins st existingConfig).config
        = [("apiServerArguments", UVal.obj [("disable-admission-plugins", v)])] ∧
      isEmptyContainer v = false := by
  show Pruned (rbrObserveRaw st existingConfig).config disableAdmissionPluginsPath = [] ∨ _
  exact Pruned_shape _ _ _

/-! Claim C1: idempotence of the OIDC observer. -/

/-- C1 counterexample: at `stScenarioA` the first call succeeds with no
errors, and the second call with the same upstream state and the first
result as existing config produces the same tree and detects no
configuration change — but it re-emits the CA-bundle sync event and
re-issues the mirror request, so the second call is not event-free. -/
theorem observe_second_call_events_counterexample :
    (ObserveExternalOIDC stScenarioA []).errs = [] ∧
    (ObserveExternalOIDC stScenarioA (ObserveExternalOIDC stScenarioA []).config).config
      = (ObserveExternalOIDC stScenarioA []).config ∧
    (ObserveExternalOIDC stScenarioA (ObserveExternalOIDC stScenarioA []).config).events
      = ["ExternalOIDC CA bundle configmap synced"] ∧
    (ObserveExternalOIDC stScenarioA (ObserveExternalOIDC stScenarioA []).config).syncs
      = [(targetOIDCCALoc, emptyLoc)] :=
  ⟨rfl, rfl, rfl, rfl⟩

/-- The observed-config effect of one loop iteration, as a function of the
observed config alone. -/
def setStep (vals : OIDCValues) (o : UObj) (p : String) : UObj :=
  match vals.lookup p with
  | none => o
  | some v =>
      match setNestedSlice o v [apiServerArgumentsPath, p] with
      | Except.ok o2 => o2
      | Except.error _ => o

/-- The same effect on the inner `apiServerArguments` map. -/
def setStepM (vals : OIDCValues) (m : UObj) (p : String) : UObj :=
  match vals.lookup p with
  | none => m
  | some v => setKey m p (UVal.arr v)

/-- The canonical shape of the loop's observed config: empty, or the inner
map nested under `apiServerArguments`. -/
def embedObs : UObj → UObj
  | [] => []
  | m => [(apiServerArgumentsPath, UVal.obj m)]

/-- `compareStep` never changes the observed config. -/
theorem compareStep_observedConfig (ex : UObj) (vals : OIDCValues) (s : LoopState) (p : String) :
    (compareStep ex vals s p).observedConfig = s.observedConfig := by
  unfold compareStep
  split
  · rfl
  · split
    · rfl
    · split <;> rfl

/-- The observed config after `setValStep` depends only on the incoming
observed config. -/
theorem setValStep_observedConfig (vals : OIDCValues) (s1 : LoopState) (p : String) :
    (setValStep vals s1 p).observedConfig = setStep vals s1.observedConfig p := by
  unfold setValStep setStep
  cases hv : vals.lookup p with
  | none => rfl
  | some v =>
      dsimp only
      cases hs : setNestedSlice s1.observedConfig v [apiServerArgumentsPath, p] <;> simp [hs]

/-- The loop's observed config is the fold of `setStep` alone. -/
theorem foldl_mergeDiffStep_observedConfig (ex : UObj) (vals : OIDCValues)
    (ps : List String) (s : LoopState) :
    (List.foldl (mergeDiffStep ex vals) s ps).observedConfig
      = List.foldl (setStep vals) s.observedConfig ps := by
  induction ps generalizing s with
  | nil => rfl
  | cons p rest ih =>
      rw [List.foldl_cons, List.foldl_cons, ih]
      rw [show mergeDiffStep ex vals s p = setValStep vals (compareStep ex vals s p) p from rfl]
      rw [setValStep_observedConfig, compareStep_observedConfig]

/-- Setting a slice into an embedded observed config stays in canonical
shape and acts as `setKey` on the inner map. -/
theorem setNestedSlice_embedObs (m : UObj) (p : String) (v : List UVal) :
    setNestedSlice (embedObs m) v [apiServerArgumentsPath, p]
      = Except.ok (embedObs (setKey m p (UVal.arr v))) := by
  cases m with
  | nil => rfl
  | cons kv rest =>
      obtain ⟨k1, v1⟩ := kv
      by_cases h : k1 = p <;>
        simp [embedObs, setNestedSlice, setNestedField, lookupKey, setKey, h, Except.map]

/-- `setStep` on an embedded config is `setStepM` on the inner map. -/
theorem setStep_embedObs (vals : OIDCValues) (m : UObj) (p : String) :
    setStep vals (embedObs m) p = embedObs (setStepM vals m p) := by
  unfold setStep setStepM
  cases hv : vals.lookup p with
  | none => rfl
  | some v =>
      dsimp only
      rw [setNestedSlice_embedObs]

/-- Folding `setStep` from an embedded config embeds the fold of
`setStepM`. -/
theorem foldl_setStep_embedObs (vals : OIDCValues) (ps : List String) (m : UObj) :
    List.foldl (setStep vals) (embedObs m) ps
      = embedObs (List.foldl (setStepM vals) m ps) := by
  induction ps generalizing m with
  | nil => rfl
  | cons p rest ih =>
      rw [List.foldl_cons, setStep_embedObs, ih, List.foldl_cons]

/-- Reading back through `setKey`. -/
theorem lookupKey_setKey (m : UObj) (k q : String) (v : UVal) :
    lookupKey (setKey m k v) q = if k = q then some v else lookupKey m q := by
  induction m with
  | nil => simp [setKey, lookupKey]
  | cons kv rest ih =>
      obtain ⟨k1, v1⟩ := kv
      by_cases h1 : k1 = k
      · subst h1
        by_cases h2 : k1 = q <;> simp [setKey, lookupKey, h2]
      · by_cases h2 : k1 = q
        · subst h2
          have hk : k ≠ k1 := fun he => h1 he.symm
          simp [setKey, lookupKey, h1, hk]
        · simp [setKey, lookupKey, h1, h2, ih]

/-- Folding `setStepM` over paths not containing `q` leaves the entry at
`q` unchanged. -/
theorem lookupKey_foldl_setStepM_not_mem (vals : OIDCValues) (ps : List String) (m : UObj)
    (q : String) (h : q ∉ ps) :
    lookupKey (List.foldl (setStepM vals) m ps) q = lookupKey m q := by
  induction ps generalizing m with
  | nil => rfl
  | cons p rest ih =>
      have hqp : q ≠ p := fun he => h (he ▸ List.mem_cons_self p rest)
      have hqr : q ∉ rest := fun hm => h (List.mem_cons_of_mem p hm)
      rw [List.foldl_cons, ih _ hqr]
      unfold setStepM
      cases hv : vals.lookup p with
      | none => rfl
      | some v =>
          rw [lookupKey_setKey, if_neg (fun he : p = q => hqp he.symm)]

/-- After folding `setStepM` over duplicate-free paths containing `q`,
starting from a map without a `q` entry, the entry at `q` is exactly the
configured value. -/
theorem lookupKey_foldl_setStepM_mem (vals : OIDCValues) (ps : List String) (m : UObj)
    (q : String) (hnd : ps.Nodup) (hq : q ∈ ps) (hm : lookupKey m q = none) :
    lookupKey (List.foldl (setStepM vals) m ps) q = (vals.lookup q).map UVal.arr := by
  induction ps generalizing m with
  | nil => cases hq
  | cons p rest ih =>
      rw [List.foldl_cons]
      obtain ⟨hpn, hnd2⟩ := List.nodup_cons.mp hnd
      rcases List.mem_cons.mp hq with rfl | hq2
      · rw [lookupKey_foldl_setStepM_not_mem vals rest _ q hpn]
        unfold setStepM
        cases hv : vals.lookup q with
        | none => dsimp only; simp [hm]
        | some v =>
            dsimp only
            rw [lookupKey_setKey]
            simp
      · have hqp : q ≠ p := fun he => hpn (he ▸ hq2)
        refine ih _ hnd2 hq2 ?_
        unfold setStepM
        cases hv : vals.lookup p with
        | none => exact hm
        | some v =>
            dsimp only
            rw [lookupKey_setKey, if_neg (fun he : p = q => hqp he.symm)]
            exact hm

/-- Walking a two-segment path whose head matches the single embedded key
reads the inner map. -/
theorem nestedFieldNoCopy_embed (m : UObj) (a q : String) :
    nestedFieldNoCopy [(a, UVal.obj m)] [a, q] = Except.ok (lookupKey m q) := by
  simp [nestedFieldNoCopy, lookupKey]

/-- Reading a slice back out of an embedded config whose inner entry at `q`
matches the configured value. -/
theorem nestedSlice_embedObs_lookup (vals : OIDCValues) (m : UObj) (q : String)
    (h : lookupKey m q = (vals.lookup q).map UVal.arr) :
    nestedSlice (embedObs m) [apiServerArgumentsPath, q] = Except.ok (vals.lookup q) := by
  cases m with
  | nil =>
      have h0 : vals.lookup q = none := by
        cases hv : vals.lookup q with
        | none => rfl
        | some v => rw [hv] at h; simp [lookupKey] at h
      simp [embedObs, nestedSlice, nestedFieldNoCopy, lookupKey, h0]
  | cons kv rest =>
      have he : embedObs (kv :: rest) = [(apiServerArgumentsPath, UVal.obj (kv :: rest))] := rfl
      cases hv : vals.lookup q with
      | none =>
          rw [hv] at h
          simp only [Option.map_none'] at h
          rw [he]
          unfold nestedSlice
          rw [nestedFieldNoCopy_embed, h]
      | some v =>
          rw [hv] at h
          simp only [Option.map_some'] at h
          rw [he]
          unfold nestedSlice
          rw [nestedFieldNoCopy_embed, h]

/-! Reflexivity of the semantic comparison on the values the validation
phase produces (strings and nil entries). -/

/-- Values produced by the validation phase: strings or the nil interface
value. -/
def flatU (v : UVal) : Prop := (∃ s, v = UVal.str s) ∨ v = UVal.null

/-- `UVal.beq` is reflexive on flat values. -/
theorem beq_refl_of_flat (v : UVal) (h : flatU v) : UVal.beq v v = true := by
  rcases h with ⟨s, rfl⟩ | rfl
  · simp [UVal.beq]
  · rfl

/-- `beqL` is reflexive on lists of flat values. -/
theorem beqL_refl_of_flat (l : List UVal) (h : ∀ x ∈ l, flatU x) : beqL l l = true := by
  induction l with
  | nil => rfl
  | cons a as ih =>
      simp [beqL, beq_refl_of_flat a (h a (List.mem_cons_self a as)),
        ih (fun x hx => h x (List.mem_cons_of_mem a hx))]

/-- The issuer-URL value is flat. -/
theorem issuerURLCheck_flat (provider : OIDCProvider) (l : List UVal)
    (h : (issuerURLCheck provider).2 = some l) : ∀ x ∈ l, flatU x := by
  unfold issuerURLCheck at h
  cases hu : urlParse provider.issuer.url with
  | error e => rw [hu] at h; simp at h
  | ok s =>
      rw [hu] at h
      by_cases hs : s != "https"
      · simp [hs] at h
      · simp [hs] at h
        intro x hx
        rw [← h] at hx
        simp at hx
        exact Or.inl ⟨_, hx⟩

/-- The client-ID value is flat. -/
theorem clientIDCheck_flat (cc : OIDCClientConfig) (l : List UVal)
    (h : (clientIDCheck cc).2 = some l) : ∀ x ∈ l, flatU x := by
  unfold clientIDCheck at h
  by_cases hc : cc.clientID.length > 0
  · simp [hc] at h
    intro x hx
    rw [← h] at hx
    simp at hx
    exact Or.inl ⟨_, hx⟩
  · simp [hc] at h

/-- Claim values are flat. -/
theorem claimVal_flat (s : String) (l : List UVal)
    (h : claimVal s = some l) : ∀ x ∈ l, flatU x := by
  unfold claimVal at h
  by_cases hs : s.length > 0
  · simp [hs] at h
    intro x hx
    rw [← h] at hx
    simp at hx
    exact Or.inl ⟨_, hx⟩
  · simp [hs] at h

/-- The username-prefix value is flat. -/
theorem usernamePfxCheck_flat (provider : OIDCProvider) (l : List UVal)
    (h : (usernamePfxCheck provider).2 = some l) : ∀ x ∈ l, flatU x := by
  unfold usernamePfxCheck at h
  intro x hx
  split at h
  · simp at h
  · simp at h
    rw [← h] at hx
    simp at hx
    exact Or.inl ⟨_, hx⟩
  · split at h
    · simp at h
    · simp at h
      rw [← h] at hx
      simp at hx
      exact Or.inl ⟨_, hx⟩
  · simp at h

/-- Each rule entry is flat. -/
theorem ruleCheck_snd_flat (i : Nat) (rule : TokenClaimValidationRule) :
    flatU (ruleCheck i rule).2 := by
  unfold ruleCheck
  cases rule.requiredClaim with
  | none => exact Or.inr rfl
  | some rc =>
      by_cases ht : rule.type = "RequiredClaim"
      · simp [ht]
        exact Or.inl ⟨_, rfl⟩
      · simp [ht]
        exact Or.inr rfl

/-- The required-claims slice is flat. -/
theorem rulesCheck_flat (rules : List TokenClaimValidationRule) (l : List UVal)
    (h : (rulesCheck rules).2 = some l) : ∀ x ∈ l, flatU x := by
  unfold rulesCheck at h
  by_cases hr : rules.length > 0
  · rw [if_pos hr] at h
    dsimp only at h
    have hl := Option.some.inj h
    intro x hx
    rw [← hl] at hx
    rcases List.mem_map.mp hx with ⟨pr, hpr, hx2⟩
    rcases List.mem_map.mp hpr with ⟨ia, hia, hpr2⟩
    rw [← hx2, ← hpr2]
    exact ruleCheck_snd_flat ia.1 ia.2
  · rw [if_neg hr] at h
    simp at h

/-- Every value configured by the validation phase is a list of flat
values. -/
theorem validateOIDC_flat (provider : OIDCProvider) (cc : OIDCClientConfig) :
    ∀ p l, ((validateOIDC provider cc).2).lookup p = some l → ∀ x ∈ l, flatU x := by
  intro p l h
  unfold OIDCValues.lookup validateOIDC at h
  dsimp only at h
  split_ifs at h
  · exact issuerURLCheck_flat provider l h
  · exact clientIDCheck_flat cc l h
  · exact claimVal_flat _ l h
  · exact usernamePfxCheck_flat provider l h
  · exact claimVal_flat _ l h
  · exact claimVal_flat _ l h
  · exact rulesCheck_flat _ l h
  · intro x hx
    have hl := Option.some.inj h
    rw [← hl] at hx
    simp at hx
    rw [hx]
    exact Or.inl ⟨_, rfl⟩

/-- One loop iteration on a converged existing config (the stored value at
the path reads back equal to the configured value) is a pure set step: no
change detected, no errors, no events. -/
theorem mergeDiffStep_converged (ex : UObj) (vals : OIDCValues) (m : UObj) (p : String)
    (hc : nestedSlice ex [apiServerArgumentsPath, p] = Except.ok (vals.lookup p))
    (hr : beqL ((vals.lookup p).getD []) ((vals.lookup p).getD []) = true) :
    mergeDiffStep ex vals ⟨false, embedObs m, [], []⟩ p
      = ⟨false, embedObs (setStepM vals m p), [], []⟩ := by
  have hcs : compareStep ex vals ⟨false, embedObs m, [], []⟩ p = ⟨false, embedObs m, [], []⟩ := by
    unfold compareStep
    simp [hc, hr]
  rw [show mergeDiffStep ex vals ⟨false, embedObs m, [], []⟩ p
      = setValStep vals (compareStep ex vals ⟨false, embedObs m, [], []⟩ p) p from rfl]
  rw [hcs]
  unfold setValStep setStepM
  cases hv : vals.lookup p with
  | none => rfl
  | some v =>
      dsimp only
      rw [setNestedSlice_embedObs]

/-- The merge/diff loop on a converged existing config detects no change,
accumulates nothing, and rebuilds the same embedded config. -/
theorem foldl_mergeDiffStep_converged (ex : UObj) (vals : OIDCValues)
    (ps : List String) (m : UObj)
    (hc : ∀ p ∈ ps, nestedSlice ex [apiServerArgumentsPath, p] = Except.ok (vals.lookup p))
    (hr : ∀ p ∈ ps, beqL ((vals.lookup p).getD []) ((vals.lookup p).getD []) = true) :
    List.foldl (mergeDiffStep ex vals) ⟨false, embedObs m, [], []⟩ ps
      = ⟨false, embedObs (List.foldl (setStepM vals) m ps), [], []⟩ := by
  induction ps generalizing m with
  | nil => rfl
  | cons p rest ih =>
      rw [List.foldl_cons,
        mergeDiffStep_converged ex vals m p (hc p (List.mem_cons_self p rest))
          (hr p (List.mem_cons_self p rest)),
        List.foldl_cons]
      exact ih _ (fun q hq => hc q (List.mem_cons_of_mem p hq))
        (fun q hq => hr q (List.mem_cons_of_mem p hq))

/-- The clean-pass shape of the helper: one provider, a client config, no
validation errors, and a no-op CA sync reduce `observeExternalOIDC` to the
merge/diff loop. -/
theorem observeExternalOIDC_clean_shape
    (auth : Authentication) (st : ClusterState) (ex : UObj)
    (provider : OIDCProvider) (cc : OIDCClientConfig)
    (hp : auth.oidcProviders = [provider])
    (hcc : getOIDCClientForComponent provider componentName targetNamespace = some cc)
    (hv : (validateOIDC provider cc).1 = [])
    (hs : syncCABundleIfNeeded st provider = ⟨false, none, []⟩) :
    observeExternalOIDC auth st ex
      = ⟨(mergeDiffLoop ex (validateOIDC provider cc).2).observedConfig,
         (mergeDiffLoop ex (validateOIDC provider cc).2).errs,
         (mergeDiffLoop ex (validateOIDC provider cc).2).events
           ++ (if (mergeDiffLoop ex (validateOIDC provider cc).2).configChanged
               then ["ExternalOIDC configuration changed"] else []),
         []⟩ := by
  simp [observeExternalOIDC, hp, hcc, hv, hs]

/-- C1 amended: with the gate enabled, the auth type OIDC, an error-free
first pass, and a CA-bundle mirror decision that reports no sync needed and
no lookup error, a second `ObserveExternalOIDC` call with the same upstream
state and the first result as existing config returns the same tree,
detects no change, and emits no events and no sync requests.  (Without the
mirror-decision hypothesis the second call re-emits the CA-sync event, see
the counterexample.) -/
theorem observe_idempotent_when_ca_converged
    (st : ClusterState) (existingConfig : UObj) (g : FeatureGates)
    (auth : Authentication) (provider : OIDCProvider)
    (h1 : st.fgAccess.initialObserved = true)
    (h2 : st.fgAccess.currentGates = Except.ok g)
    (h3 : g.externalOIDCEnabled = true)
    (h4 : st.authLookup = LookupResult.found auth)
    (h5 : auth.specType = "OIDC")
    (h6 : auth.oidcProviders = [provider])
    (h7 : (ObserveExternalOIDC st existingConfig).errs = [])
    (h8 : cmNeedsSync st TargetOIDCCAConfigMapName targetNamespace
        provider.issuer.certificateAuthority.name caBundleSourceNamespace "ca-bundle.crt"
      = (false, none)) :
    ObserveExternalOIDC st ((ObserveExternalOIDC st existingConfig).config)
      = ⟨(ObserveExternalOIDC st existingConfig).config, [], [], []⟩ := by
  have hred : ∀ X, ObserveExternalOIDC st X = observeExternalOIDC auth st X := by
    intro X
    simp [ObserveExternalOIDC, h1, h2, h3, h4, h5]
  have hsync : syncCABundleIfNeeded st provider = ⟨false, none, []⟩ := by
    unfold syncCABundleIfNeeded
    simp [h8]
  cases hcc : getOIDCClientForComponent provider componentName targetNamespace with
  | none =>
      rw [hred] at h7
      simp [observeExternalOIDC, h6, hcc] at h7
  | some cc =>
      by_cases hval : (validateOIDC provider cc).1.length > 0
      · have h7x : (validateOIDC provider cc).1 = [] := by
          rw [hred] at h7
          simpa [observeExternalOIDC, h6, hcc, hval] using h7
        rw [h7x] at hval
        simp at hval
      · have hv0 : (validateOIDC provider cc).1 = [] :=
          List.length_eq_zero.mp (Nat.eq_zero_of_not_pos hval)
        have hshape := observeExternalOIDC_clean_shape auth st existingConfig provider cc
          h6 hcc hv0 hsync
        have hM : (mergeDiffLoop existingConfig (validateOIDC provider cc).2).observedConfig
            = embedObs (List.foldl (setStepM (validateOIDC provider cc).2) [] oidcArgPaths) := by
          unfold mergeDiffLoop
          rw [foldl_mergeDiffStep_observedConfig]
          exact foldl_setStep_embedObs (validateOIDC provider cc).2 oidcArgPaths []
        have hfc : (ObserveExternalOIDC st existingConfig).config
            = embedObs (List.foldl (setStepM (validateOIDC provider cc).2) [] oidcArgPaths) := by
          rw [hred, hshape]
          exact hM
        have hc : ∀ p ∈ oidcArgPaths,
            nestedSlice
              (embedObs (List.foldl (setStepM (validateOIDC provider cc).2) [] oidcArgPaths))
              [apiServerArgumentsPath, p]
              = Except.ok ((validateOIDC provider cc).2.lookup p) := by
          intro p hp2
          exact nestedSlice_embedObs_lookup _ _ _
            (lookupKey_foldl_setStepM_mem _ oidcArgPaths [] p (by decide) hp2 rfl)
        have hr : ∀ p ∈ oidcArgPaths,
            beqL (((validateOIDC provider cc).2.lookup p).getD [])
              (((validateOIDC provider cc).2.lookup p).getD []) = true := by
          intro p hp2
          cases hv : (validateOIDC provider cc).2.lookup p with
          | none => rfl
          | some l => exact beqL_refl_of_flat l (validateOIDC_flat provider cc p l hv)
        have hloop2 : mergeDiffLoop
            (embedObs (List.foldl (setStepM (validateOIDC provider cc).2) [] oidcArgPaths))
            (validateOIDC provider cc).2
            = ⟨false,
               embedObs (List.foldl (setStepM (validateOIDC provider cc).2) [] oidcArgPaths),
               [], []⟩ := by
          unfold mergeDiffLoop
          exact foldl_mergeDiffStep_converged _ _ oidcArgPaths [] hc hr
        rw [hfc, hred,
          observeExternalOIDC_clean_shape auth st _ provider cc h6 hcc hv0 hsync, hloop2]
        rfl

/-- Witness for the amended C1 at the converged state `stConvergedCA`. -/
theorem observe_idempotent_when_ca_converged_witness :
    ObserveExternalOIDC stConvergedCA ((ObserveExternalOIDC stConvergedCA []).config)
      = ⟨(ObserveExternalOIDC stConvergedCA []).config, [], [], []⟩ :=
  observe_idempotent_when_ca_converged stConvergedCA [] ⟨true⟩
    ⟨"OIDC", [scenarioProvider "" "oidc-ca"]⟩ (scenarioProvider "" "oidc-ca")
    rfl rfl rfl rfl rfl rfl rfl rfl
